import Mathlib

/-!
Verification of the DeepClaude gateway against its natural-language
specification.  The Python source is shallowly embedded: pure request /
response processing becomes Lean functions, the mutable pieces (the
cancellation registry, Python dicts aliased through list copies) become
explicit state passing, and Python exceptions become `Except`.
-/

deriving instance DecidableEq for Except

namespace DeepClaude

/-! ### Python-level helpers -/

/-- Truthiness of a Python `Optional[str]`: `None` and `""` are falsy,
every other string is truthy (used for `if content:` style tests). -/
def truthyOptStr : Option String → Bool
  | none => false
  | some s => s ≠ ""

/-- Containment of a character list `pat` inside another list, scanning left
to right; embeds the Python substring test `pat in s`. -/
def charListContains (pat : List Char) : List Char → Bool
  | [] => pat.isEmpty
  | c :: rest => pat.isPrefixOf (c :: rest) || charListContains pat rest

/-- Python `pat in s` on strings. -/
def strContains (s pat : String) : Bool := charListContains pat.data s.data

/-! ### Canonical streaming chunk (src/app/chatcompletion/openai_compatible.py)

`OpenAIStreamDelta`, `OpenAIStreamChoice` and `OpenAIStreamCompletion`
mirror the dataclasses of the same names; `created` is an `int` (unix
seconds) modelled as `Nat`.  The `object` field is the constant
`"chat.completion.chunk"` and is omitted. -/

structure OpenAIStreamDelta where
  content : Option String := none
  role : Option String := none
  reasoning_content : Option String := none
deriving DecidableEq

structure OpenAIUsage where
  completion_tokens : Option Nat := none
  prompt_tokens : Option Nat := none
  total_tokens : Option Nat := none
deriving DecidableEq

structure OpenAIStreamChoice where
  index : Option Nat := some 0
  delta : OpenAIStreamDelta := {}
  finish_reason : Option String := none
deriving DecidableEq

structure OpenAIStreamCompletion where
  id : String
  created : Nat
  model : String
  choices : List OpenAIStreamChoice := []
  provider_chat_id : Option String := none
  usage : Option OpenAIUsage := none
deriving DecidableEq

/-- Access `chunk.choices[0].delta` (src/app/EnsembleModel/composite_model.py
line 76).  Every client constructs a one-element `choices` list, which this
default-headed access models. -/
def chunkDelta (c : OpenAIStreamCompletion) : OpenAIStreamDelta :=
  (c.choices.headD {}).delta

/-! ### Composite orchestrator, stage 1 (src/app/EnsembleModel/composite_model.py,
`CompositeModel.stream_chat` lines 47-99)

The reasoning upstream is embedded as the list of canonical chunks it would
deliver; the caller's `cancel_flag.is_set()` observations are an oracle list
of booleans, one per loop iteration (`[]` means the flag is never seen set;
`List.tail []` is `[]`, so the empty oracle stays never-set).  The loop
order follows the source: test cancel, yield the chunk, accumulate
`delta.reasoning_content` when truthy, then break when `delta.content` is
truthy, setting the per-stage `reasoning_cancel_flag`. -/

inductive Stage1Exit where
  | cancelled
  | boundary
  | exhausted
deriving DecidableEq

structure Stage1Result where
  yielded : List OpenAIStreamCompletion
  tempContent : String
  exit : Stage1Exit
  rCancelSet : Bool
deriving DecidableEq

def stage1Loop (chunks : List OpenAIStreamCompletion) (cancels : List Bool)
    (acc : String) : Stage1Result :=
  match chunks with
  | [] => { yielded := [], tempContent := acc, exit := .exhausted, rCancelSet := false }
  | c :: rest =>
    if cancels.headD false then
      { yielded := [], tempContent := acc, exit := .cancelled, rCancelSet := true }
    else
      let d := chunkDelta c
      let acc' := if truthyOptStr d.reasoning_content
        then acc ++ d.reasoning_content.getD "" else acc
      if truthyOptStr d.content then
        { yielded := [c], tempContent := acc', exit := .boundary, rCancelSet := true }
      else
        let r := stage1Loop rest cancels.tail acc'
        { r with yielded := c :: r.yielded }

/-- Whether a canonical chunk's `delta.content` is truthy, the condition of
the boundary-detection `if content:` at composite_model.py line 84. -/
def hasContentB (c : OpenAIStreamCompletion) : Bool :=
  truthyOptStr (chunkDelta c).content

theorem stage1Loop_findIdx (chunks : List OpenAIStreamCompletion) (acc : String) :
    (match chunks.findIdx? hasContentB with
     | some i =>
        (stage1Loop chunks [] acc).exit = .boundary ∧
        (stage1Loop chunks [] acc).rCancelSet = true ∧
        (stage1Loop chunks [] acc).yielded = chunks.take (i + 1)
     | none =>
        (stage1Loop chunks [] acc).exit = .exhausted ∧
        (stage1Loop chunks [] acc).rCancelSet = false ∧
        (stage1Loop chunks [] acc).yielded = chunks) := by
  induction chunks generalizing acc with
  | nil => simp [stage1Loop]
  | cons c rest ih =>
    by_cases hc : hasContentB c
    · simp [List.findIdx?_cons, hc, stage1Loop, hasContentB] at *
      simp [stage1Loop, show truthyOptStr (chunkDelta c).content = true from hc]
    · have h1 : (List.findIdx? hasContentB (c :: rest)) =
          (List.findIdx? hasContentB rest).map (· + 1) := by
        simp [List.findIdx?_cons, hc]
      have hcf : truthyOptStr (chunkDelta c).content = false := by
        simpa [hasContentB] using hc
      have hstep : stage1Loop (c :: rest) [] acc =
          (let acc' := if truthyOptStr (chunkDelta c).reasoning_content
              then acc ++ (chunkDelta c).reasoning_content.getD "" else acc
           let r := stage1Loop rest [] acc'
           { r with yielded := c :: r.yielded }) := by
        simp [stage1Loop, hcf]
      rw [h1]
      cases hfind : List.findIdx? hasContentB rest with
      | none =>
        have := ih (if truthyOptStr (chunkDelta c).reasoning_content
            then acc ++ (chunkDelta c).reasoning_content.getD "" else acc)
        rw [hfind] at this
        simp only [Option.map_none']
        rw [hstep]
        simp only []
        exact ⟨this.1, this.2.1, by simp [this.2.2]⟩
      | some i =>
        have := ih (if truthyOptStr (chunkDelta c).reasoning_content
            then acc ++ (chunkDelta c).reasoning_content.getD "" else acc)
        rw [hfind] at this
        simp only [Option.map_some']
        rw [hstep]
        simp only []
        exact ⟨this.1, this.2.1, by simp [this.2.2, List.take_succ_cons]⟩

/-- C1: boundary detection in a composite stream (no caller cancellation):
stage 1 exits through the boundary branch exactly at the first reasoning-stage
chunk whose `delta.content` is non-empty — on that chunk the reasoning-stage
cancel signal is set and the loop stops, having yielded the chunks up to and
including it — while a stream with no such chunk (contents empty or absent,
e.g. empty-string keep-alives) runs to exhaustion with the cancel signal
still clear. -/
theorem composite_stage1_boundary_detection (chunks : List OpenAIStreamCompletion) :
    (match chunks.findIdx? hasContentB with
     | some i =>
        (stage1Loop chunks [] "").exit = .boundary ∧
        (stage1Loop chunks [] "").rCancelSet = true ∧
        (stage1Loop chunks [] "").yielded = chunks.take (i + 1)
     | none =>
        (stage1Loop chunks [] "").exit = .exhausted ∧
        (stage1Loop chunks [] "").rCancelSet = false ∧
        (stage1Loop chunks [] "").yielded = chunks) :=
  stage1Loop_findIdx chunks ""

/-! ### Composite orchestrator, stages 2 and 3
(src/app/EnsembleModel/composite_model.py lines 89-150)

Python message lists are lists of dict references.  `messages.copy()` at
line 102 copies only the list spine, so the dicts stay shared; we model a
message dict heap (`List Msg`, indexed by reference) next to the reference
lists, and the in-place assignment `target_messages[-1]["content"] = ...`
at line 120 as a heap update. -/

structure Msg where
  role : Option String := none
  content : Option String := none
deriving DecidableEq

/-- Trailer of the rewritten prompt: the `combined_content` f-string of
composite_model.py lines 109-116, reproduced character for character. -/
def combinedContent (tempContent : String) : String :=
  "\n                ******The above is user information*****\n                The following is the reasoning process of another model:****\n" ++ tempContent ++ "\n\n ****\n                Based on this reasoning, combined with your knowledge,\n                when the current reasoning conflicts with your knowledge,\n                you are more confident that you can adopt your own knowledge,\n                which is completely acceptable. Please provide the user with a complete answer directly.\n                ***Notice, Here is your settings: SELF_TALK: off REASONING: off THINKING: off PLANNING: off THINKING_BUDGET: < 100 tokens ***:"

/-- The `fixed_content` f-string of composite_model.py line 118. -/
def fixedContent (originalUserContent tempContent : String) : String :=
  "Here\x27s my original input:\n" ++ originalUserContent ++ "\n\n" ++ combinedContent tempContent

/-- Result of stage 2: the heap after the in-place mutation, and the
reference list held by `target_messages`. -/
structure Stage2Out where
  heap : List Msg
  targetRefs : List Nat
deriving DecidableEq

/-- Stage 2 of `CompositeModel.stream_chat` (lines 101-122):
`target_messages = messages.copy()` duplicates the reference list only; the
last message must carry role `"user"` (`.get("role") == "user"`), its
original content is read with `.get("content", "")`, and the shared dict's
`content` is overwritten with the rewritten prompt.  On a non-user (or
missing) last message a `ClientAPIError` with the source's message is
raised. -/
def stage2Rewrite (heap : List Msg) (msgRefs : List Nat) (tempContent : String) :
    Except String Stage2Out :=
  let targetRefs := msgRefs
  match targetRefs.getLast? with
  | some lastRef =>
    let lastMsg := heap.getD lastRef {}
    if lastMsg.role = some "user" then
      let originalUserContent := lastMsg.content.getD ""
      let heap' := heap.set lastRef
        { lastMsg with content := some (fixedContent originalUserContent tempContent) }
      .ok { heap := heap', targetRefs := targetRefs }
    else
      .error "未能获取到有效的用户消息"
  | none => .error "未能获取到有效的用户消息"

inductive CompositeOutcome where
  | cancelled
  | fail (msg : String)
  | done
deriving DecidableEq

structure Stage3Result where
  yielded : List OpenAIStreamCompletion
  outcome : CompositeOutcome
deriving DecidableEq

/-- Stage 3 of `CompositeModel.stream_chat` (lines 128-144): forward the
target upstream's chunks, ending the sequence (after cascading the cancel to
`target_cancel_flag`) as soon as the caller's flag is observed set. -/
def stage3Loop (chunks : List OpenAIStreamCompletion) (cancels : List Bool) :
    Stage3Result :=
  match chunks with
  | [] => { yielded := [], outcome := .done }
  | c :: rest =>
    if cancels.headD false then
      { yielded := [], outcome := .cancelled }
    else
      let r := stage3Loop rest cancels.tail
      { r with yielded := c :: r.yielded }

/-- Observable result of one whole `CompositeModel.stream_chat` call. -/
structure CompositeRun where
  yielded : List OpenAIStreamCompletion
  heap : List Msg
  rewriteDone : Bool
  targetCalled : Bool
  outcome : CompositeOutcome
deriving DecidableEq

/-- Whole-call model of `CompositeModel.stream_chat` (lines 47-150): stage 1
over `reasoningChunks`, the empty-`temp_content` check raising
`ClientAPIError("未能获取到有效的推理内容")`, the stage-2 rewrite on the
shared heap, the mid-point cancel check of line 124, then stage 3 over
`targetChunks`.  Each `cancel_flag.is_set()` consultation reads the next
entry of its oracle. -/
def compositeStreamChat (heap : List Msg) (msgRefs : List Nat)
    (reasoningChunks targetChunks : List OpenAIStreamCompletion)
    (cancels1 : List Bool) (cancelMid : Bool) (cancels3 : List Bool) :
    CompositeRun :=
  let s1 := stage1Loop reasoningChunks cancels1 ""
  match s1.exit with
  | .cancelled =>
    { yielded := s1.yielded, heap := heap, rewriteDone := false,
      targetCalled := false, outcome := .cancelled }
  | _ =>
    if s1.tempContent = "" then
      { yielded := s1.yielded, heap := heap, rewriteDone := false,
        targetCalled := false, outcome := .fail "未能获取到有效的推理内容" }
    else
      match stage2Rewrite heap msgRefs s1.tempContent with
      | .error e =>
        { yielded := s1.yielded, heap := heap, rewriteDone := false,
          targetCalled := false, outcome := .fail e }
      | .ok s2 =>
        if cancelMid then
          { yielded := s1.yielded, heap := s2.heap, rewriteDone := true,
            targetCalled := false, outcome := .cancelled }
        else
          let s3 := stage3Loop targetChunks cancels3
          { yielded := s1.yielded ++ s3.yielded, heap := s2.heap,
            rewriteDone := true, targetCalled := true, outcome := s3.outcome }

/-- C7: when the stage-1 loop exits on its own (not through a caller
cancellation) with an empty accumulated reasoning buffer, the composite call
fails with the `ClientAPIError` message `未能获取到有效的推理内容` ("no
valid reasoning content"); the rewrite is not performed (the caller's
messages are untouched) and the target stage is never entered. -/
theorem composite_empty_reasoning_fails (heap : List Msg) (msgRefs : List Nat)
    (reasoningChunks targetChunks : List OpenAIStreamCompletion)
    (cancels1 : List Bool) (cancelMid : Bool) (cancels3 : List Bool)
    (h1 : (stage1Loop reasoningChunks cancels1 "").exit ≠ .cancelled)
    (h2 : (stage1Loop reasoningChunks cancels1 "").tempContent = "") :
    compositeStreamChat heap msgRefs reasoningChunks targetChunks
        cancels1 cancelMid cancels3 =
      { yielded := (stage1Loop reasoningChunks cancels1 "").yielded,
        heap := heap, rewriteDone := false, targetCalled := false,
        outcome := .fail "未能获取到有效的推理内容" } := by
  unfold compositeStreamChat
  cases hE : (stage1Loop reasoningChunks cancels1 "").exit with
  | cancelled => exact absurd hE h1
  | boundary => simp [hE, h2]
  | exhausted => simp [hE, h2]

/-- Witness for C7 at a concrete input: an upstream that ends before any
reasoning chunk (here, the empty stream) triggers the failure. -/
theorem composite_empty_reasoning_fails_witness :
    compositeStreamChat [{ role := some "user", content := some "hi" }] [0]
        [] [] [] false [] =
      { yielded := (stage1Loop [] [] "").yielded,
        heap := [{ role := some "user", content := some "hi" }],
        rewriteDone := false, targetCalled := false,
        outcome := .fail "未能获取到有效的推理内容" } :=
  composite_empty_reasoning_fails
    [{ role := some "user", content := some "hi" }] [0] [] [] [] false []
    (by decide) (by decide)

/-- Concrete caller state for exercising the stage-2 rewrite: one message
dict `{"role": "user", "content": "hi"}` at heap reference 0. -/
def c6Heap : List Msg := [{ role := some "user", content := some "hi" }]

/-- Concrete reasoning-stage chunk carrying `reasoning_content = "because"`
and no `content`, so stage 1 ends by exhaustion with a non-empty buffer. -/
def c6ReasonChunk : OpenAIStreamCompletion :=
  { id := "chatcmpl-r", created := 1, model := "r",
    choices := [{ delta := { reasoning_content := some "because" } }] }

/-- C6 counterexample: after a completed composite call the caller's last
message dict no longer holds its original content — `messages.copy()` copies
only the list spine, the dict is shared with `target_messages` and mutated
in place by the line-120 assignment, refuting the claim that the caller's
message dicts are unchanged. -/
theorem composite_rewrite_mutates_caller_messages :
    (((compositeStreamChat c6Heap [0] [c6ReasonChunk] [] [] false []).heap.getD 0
        {}).content ≠ some "hi") ∧
    (compositeStreamChat c6Heap [0] [c6ReasonChunk] [] [] false []).outcome = .done := by
  decide

/-- Value of the last referenced message dict after the line-120 in-place
assignment: the same dict with its `content` replaced by the rewritten
prompt. -/
def rewrittenLastMsg (heap : List Msg) (lastRef : Nat) (tempContent : String) : Msg :=
  let lastMsg := heap.getD lastRef {}
  { lastMsg with content := some (fixedContent (lastMsg.content.getD "") tempContent) }

/-- C6 amended: the stage-2 rewrite copies only the list spine.
`target_messages` holds the very same dict references as the caller's list
(`targetRefs = msgRefs`), and the heap after the call is the caller's heap
with exactly the last referenced dict updated: its `content` becomes the
rewritten prompt built from the original content and the reasoning buffer,
while every other dict is untouched — so the caller sees the rewritten
content, not the original. -/
theorem composite_rewrite_shallow_copy (heap : List Msg) (msgRefs : List Nat)
    (reasoningChunks targetChunks : List OpenAIStreamCompletion)
    (cancels1 : List Bool) (cancelMid : Bool) (cancels3 : List Bool) (lastRef : Nat)
    (h1 : (stage1Loop reasoningChunks cancels1 "").exit ≠ .cancelled)
    (h2 : (stage1Loop reasoningChunks cancels1 "").tempContent ≠ "")
    (h3 : msgRefs.getLast? = some lastRef)
    (h4 : (heap.getD lastRef {}).role = some "user") :
    stage2Rewrite heap msgRefs (stage1Loop reasoningChunks cancels1 "").tempContent =
      .ok { heap := heap.set lastRef
              (rewrittenLastMsg heap lastRef (stage1Loop reasoningChunks cancels1 "").tempContent),
            targetRefs := msgRefs } ∧
    (compositeStreamChat heap msgRefs reasoningChunks targetChunks
        cancels1 cancelMid cancels3).heap =
      heap.set lastRef
        (rewrittenLastMsg heap lastRef (stage1Loop reasoningChunks cancels1 "").tempContent) := by
  have hs2 : stage2Rewrite heap msgRefs
      (stage1Loop reasoningChunks cancels1 "").tempContent =
      .ok { heap := heap.set lastRef
              (rewrittenLastMsg heap lastRef (stage1Loop reasoningChunks cancels1 "").tempContent),
            targetRefs := msgRefs } := by
    have h4' : ((heap[lastRef]?).getD {}).role = some "user" := by
      simpa [List.getD] using h4
    simp [stage2Rewrite, h3, h4', rewrittenLastMsg, List.getD]
  refine ⟨hs2, ?_⟩
  unfold compositeStreamChat
  cases hE : (stage1Loop reasoningChunks cancels1 "").exit with
  | cancelled => exact absurd hE h1
  | boundary =>
    simp only [hE, h2, if_neg h2, hs2]
    cases cancelMid <;> simp
  | exhausted =>
    simp only [hE, h2, if_neg h2, hs2]
    cases cancelMid <;> simp

/-- Witness for the amended C6 theorem at the concrete caller state. -/
theorem composite_rewrite_shallow_copy_witness :
    stage2Rewrite c6Heap [0] (stage1Loop [c6ReasonChunk] [] "").tempContent =
      .ok { heap := c6Heap.set 0
              (rewrittenLastMsg c6Heap 0 (stage1Loop [c6ReasonChunk] [] "").tempContent),
            targetRefs := [0] } ∧
    (compositeStreamChat c6Heap [0] [c6ReasonChunk] [] [] false []).heap =
      c6Heap.set 0
        (rewrittenLastMsg c6Heap 0 (stage1Loop [c6ReasonChunk] [] "").tempContent) :=
  composite_rewrite_shallow_copy c6Heap [0] [c6ReasonChunk] [] [] false [] 0
    (by decide) (by decide) (by decide) (by decide)

/-! ### Reasoner-family client, embedded reasoning
(src/app/clients/deepseek_client.py, `DeepSeekClient.stream_chat`
lines 57-192, the `is_origin_reasoning == False` branch lines 125-183) -/

/-- Modelled from the spec: `format_openai_compatible_stream_response` is
called throughout `DeepSeekClient.stream_chat` but is defined nowhere under
src; per the spec's canonical streaming-chunk shape it wraps the given
`content` / `reasoning_content` into a one-choice canonical chunk carrying
the stream's fixed `id`, `created` and `model`. -/
def format_openai_compatible_stream_response (chat_id : String)
    (created_time : Nat) (model : String) (content : Option String)
    (reasoning_content : Option String := none) : OpenAIStreamCompletion :=
  { id := chat_id, created := created_time, model := model,
    choices := [{ index := some 0,
                  delta := { content := content, role := none,
                             reasoning_content := reasoning_content } }] }

/-- Processing of one SSE line's `delta` in the embedded-reasoning branch of
`DeepSeekClient.stream_chat`.  `accumulated_content` and
`is_collecting_think` are initialised at lines 126-127, INSIDE the per-line
loop body, so both are reset for every line; the translation keeps those
(per-line, hence dead) local variables.  `content = delta.get("content","")`;
a fully empty string is skipped; a line containing `<think>` is emitted
whole as `reasoning_content`; the `is_collecting_think` branches below it
can never run because the flag is still at its per-line initial value; any
other line is emitted whole as `content`. -/
def processEmbeddedLine (chat_id : String) (created_time : Nat) (model : String)
    (delta_content : Option String) : List OpenAIStreamCompletion :=
  let accumulated_content := ""
  let is_collecting_think := false
  let content := delta_content.getD ""
  if content = "" then []
  else
    let accumulated_content := accumulated_content ++ content
    if strContains content "<think>" && !is_collecting_think then
      [format_openai_compatible_stream_response chat_id created_time model
        (some "") (some content)]
    else if is_collecting_think then
      if strContains content "</think>" then
        [format_openai_compatible_stream_response chat_id created_time model
          (some "") (some content),
         format_openai_compatible_stream_response chat_id created_time model
          (some "")]
      else
        [format_openai_compatible_stream_response chat_id created_time model
          (some "") (some content)]
    else
      [format_openai_compatible_stream_response chat_id created_time model
        (some content)]

/-- Embedded-reasoning stream normalization: the chunks emitted for a
sequence of upstream `delta.content` values. -/
def deepseekEmbeddedStreamChat (chat_id : String) (created_time : Nat)
    (model : String) (deltas : List (Option String)) :
    List OpenAIStreamCompletion :=
  deltas.flatMap (processEmbeddedLine chat_id created_time model)

/-- Concatenation of all emitted `reasoning_content` fields of a chunk
list. -/
def concatReasoningContent (l : List OpenAIStreamCompletion) : String :=
  (l.map (fun c => (chunkDelta c).reasoning_content.getD "")).foldr (· ++ ·) ""

/-- Concatenation of all emitted `content` fields of a chunk list. -/
def concatContentFields (l : List OpenAIStreamCompletion) : String :=
  (l.map (fun c => (chunkDelta c).content.getD "")).foldr (· ++ ·) ""

/-- C2, evaluated at the failing input: on the single-chunk upstream text
`<think>abc</think>def` the embedded-reasoning branch emits exactly one
chunk whose `reasoning_content` is the WHOLE text, markers included; the
concatenated reasoning-then-content output is `<think>abc</think>def`, not
the marker-stripped `abcdef`, and the emitted chunks are not reasoning
`abc` followed by content `def`.  The cause is that `accumulated_content`
and `is_collecting_think` are re-initialised for every line
(deepseek_client.py lines 126-127), so `</think>` handling is dead code. -/
theorem deepseek_embedded_think_extraction_bug :
    deepseekEmbeddedStreamChat "chatcmpl-x" 3 "m" [some "<think>abc</think>def"] =
      [format_openai_compatible_stream_response "chatcmpl-x" 3 "m"
        (some "") (some "<think>abc</think>def")] ∧
    concatReasoningContent
        (deepseekEmbeddedStreamChat "chatcmpl-x" 3 "m" [some "<think>abc</think>def"]) ++
      concatContentFields
        (deepseekEmbeddedStreamChat "chatcmpl-x" 3 "m" [some "<think>abc</think>def"]) =
      "<think>abc</think>def" ∧
    concatReasoningContent
        (deepseekEmbeddedStreamChat "chatcmpl-x" 3 "m" [some "<think>abc</think>def"]) ++
      concatContentFields
        (deepseekEmbeddedStreamChat "chatcmpl-x" 3 "m" [some "<think>abc</think>def"]) ≠
      "abcdef" ∧
    deepseekEmbeddedStreamChat "chatcmpl-x" 3 "m" [some "<think>abc</think>def"] ≠
      [format_openai_compatible_stream_response "chatcmpl-x" 3 "m" (some "") (some "abc"),
       format_openai_compatible_stream_response "chatcmpl-x" 3 "m" (some "def")] := by
  refine ⟨by decide, by decide, by decide, by decide⟩

/-! ### Direct upstream clients, canonical stream invariants
(src/app/clients/openai_compatible_client.py `stream_chat` lines 136-200 and
src/app/clients/claude_client.py `stream_chat` lines 220-293)

Both loops fix `chat_id`/`created`/`model` once before reading (openai:
`created = int(time.time())` at line 162 with `chat_id` and `model` taken
from the parameters; claude: `chat_id` and `created` computed at lines
246-247) and build every emitted chunk from those same variables.  The wire
side is embedded as already-parsed SSE items; `parse_json_line` failures
appear as `malformed`. -/

structure WireDelta where
  role : Option String := none
  content : Option String := none
  reasoning_content : Option String := none
deriving DecidableEq

structure WireChoice where
  delta : WireDelta := {}
  index : Option Nat := none
  finish_reason : Option String := none
deriving DecidableEq

structure WireChunk where
  id : Option String := none
  choices : List WireChoice := []
  usage : Option OpenAIUsage := none
deriving DecidableEq

inductive SSEItem where
  | malformed
  | done
  | record (w : WireChunk)
deriving DecidableEq

/-- Canonical chunk built at openai_compatible_client.py lines 180-200:
`id`/`created`/`model` come from the pre-loop variables,
`provider_chat_id` from the wire record's own `id`, and the single choice
copies `choices[0]`'s delta, index and finish_reason. -/
def mkOpenAIChunk (chat_id : String) (created : Nat) (model : String)
    (w : WireChunk) : OpenAIStreamCompletion :=
  let first := w.choices.headD {}
  { id := chat_id, created := created, model := model,
    provider_chat_id := w.id,
    choices := [{ delta := { role := first.delta.role,
                             content := first.delta.content,
                             reasoning_content := first.delta.reasoning_content },
                  index := first.index,
                  finish_reason := first.finish_reason }],
    usage := w.usage }

/-- Per-network-chunk line loop of `OpenAICompatibleClient.stream_chat`:
unparseable lines are skipped (`parse_json_line` returned `None`), the
`[DONE]` sentinel breaks out of the line loop, every other record is
normalized. -/
def processOpenAILines (chat_id : String) (created : Nat) (model : String) :
    List SSEItem → List OpenAIStreamCompletion
  | [] => []
  | .malformed :: rest => processOpenAILines chat_id created model rest
  | .done :: _ => []
  | .record w :: rest =>
      mkOpenAIChunk chat_id created model w ::
        processOpenAILines chat_id created model rest

/-- Whole-stream normalization of `OpenAICompatibleClient.stream_chat`: the
outer read loop concatenates the per-chunk line loops. -/
def openAICompatibleStreamChat (chat_id : String) (created : Nat)
    (model : String) (netChunks : List (List SSEItem)) :
    List OpenAIStreamCompletion :=
  netChunks.flatMap (processOpenAILines chat_id created model)

structure ClaudeWireDelta where
  type : Option String := none
  text : Option String := none
  thinking : Option String := none
  stop_reason : Option String := none
deriving DecidableEq

structure ClaudeWireMessage where
  id : Option String := none
  role : Option String := none
deriving DecidableEq

structure ClaudeUsage where
  input_tokens : Option Nat := none
  output_tokens : Option Nat := none
deriving DecidableEq

structure ClaudeWireEvent where
  type : Option String := none
  messages : List ClaudeWireMessage := []
  delta : Option ClaudeWireDelta := none
  index : Option Nat := none
  usage : Option ClaudeUsage := none
deriving DecidableEq

/-- Canonical chunk built at claude_client.py lines 274-293. -/
def mkClaudeChunk (chat_id : String) (created : Nat) (model : String)
    (provider_chat_id role : Option String) (ev : ClaudeWireEvent)
    (d : ClaudeWireDelta) : OpenAIStreamCompletion :=
  { id := chat_id, created := created, model := model,
    provider_chat_id := provider_chat_id,
    choices := [{ delta := { role := role, content := d.text,
                             reasoning_content := d.thinking },
                  index := ev.index,
                  finish_reason := d.stop_reason }],
    usage := ev.usage.map (fun u =>
      { completion_tokens := u.output_tokens, prompt_tokens := u.input_tokens }) }

/-- Line loop of `ClaudeClient.stream_chat` (lines 250-293): a
`message_start` event refreshes `provider_chat_id` and `role` from
`messages[0]`; events without a `delta` and tool-use `input_json_delta`
deltas are skipped; everything else is normalized.  Unparseable lines and
the `[DONE]` sentinel both come back from the client's own
`parse_json_line` as `None` and are embedded as `none`. -/
def processClaudeLines (chat_id : String) (created : Nat) (model : String)
    (provider_chat_id role : Option String) :
    List (Option ClaudeWireEvent) → List OpenAIStreamCompletion
  | [] => []
  | none :: rest => processClaudeLines chat_id created model provider_chat_id role rest
  | some ev :: rest =>
    let pcid := if ev.type = some "message_start"
      then (ev.messages.headD {}).id else provider_chat_id
    let role' := if ev.type = some "message_start"
      then (ev.messages.headD {}).role else role
    match ev.delta with
    | none => processClaudeLines chat_id created model pcid role' rest
    | some d =>
      if d.type = some "input_json_delta" then
        processClaudeLines chat_id created model pcid role' rest
      else
        mkClaudeChunk chat_id created model pcid role' ev d ::
          processClaudeLines chat_id created model pcid role' rest

/-- Whole-stream normalization of `ClaudeClient.stream_chat`, starting with
`provider_chat_id = None` and `role = None` (lines 248-249). -/
def claudeStreamChat (chat_id : String) (created : Nat) (model : String)
    (events : List (Option ClaudeWireEvent)) : List OpenAIStreamCompletion :=
  processClaudeLines chat_id created model none none events

theorem mem_processOpenAILines {chat_id : String} {created : Nat}
    {model : String} {items : List SSEItem} {c : OpenAIStreamCompletion}
    (h : c ∈ processOpenAILines chat_id created model items) :
    c.id = chat_id ∧ c.created = created ∧ c.model = model := by
  induction items with
  | nil => simp [processOpenAILines] at h
  | cons i rest ih =>
    cases i with
    | malformed => exact ih (by simpa [processOpenAILines] using h)
    | done => simp [processOpenAILines] at h
    | record w =>
      rcases (by simpa [processOpenAILines] using h :
          c = mkOpenAIChunk chat_id created model w ∨
            c ∈ processOpenAILines chat_id created model rest) with hc | hc
      · subst hc; exact ⟨rfl, rfl, rfl⟩
      · exact ih hc

theorem mem_processClaudeLines {chat_id : String} {created : Nat}
    {model : String} {pcid role : Option String}
    {events : List (Option ClaudeWireEvent)} {c : OpenAIStreamCompletion}
    (h : c ∈ processClaudeLines chat_id created model pcid role events) :
    c.id = chat_id ∧ c.created = created ∧ c.model = model := by
  induction events generalizing pcid role with
  | nil => simp [processClaudeLines] at h
  | cons e rest ih =>
    cases e with
    | none => exact ih (by simpa [processClaudeLines] using h)
    | some ev =>
      rw [processClaudeLines] at h
      cases hd : ev.delta with
      | none =>
        simp only [hd] at h
        exact ih h
      | some d =>
        simp only [hd] at h
        by_cases ht : d.type = some "input_json_delta"
        · simp only [if_pos ht] at h
          exact ih h
        · simp only [if_neg ht] at h
          rcases List.mem_cons.mp h with hc | hc
          · subst hc; exact ⟨rfl, rfl, rfl⟩
          · exact ih hc

/-- C9: within one `stream_chat` call of either direct client, every
emitted canonical chunk carries the same `id`, the same `created` timestamp
and the same `model` — the pre-loop values — whatever the upstream wire
stream contains. -/
theorem stream_chunks_share_id_created_model :
    (∀ (chat_id : String) (created : Nat) (model : String)
        (netChunks : List (List SSEItem)) (c : OpenAIStreamCompletion),
        c ∈ openAICompatibleStreamChat chat_id created model netChunks →
        c.id = chat_id ∧ c.created = created ∧ c.model = model) ∧
    (∀ (chat_id : String) (created : Nat) (model : String)
        (events : List (Option ClaudeWireEvent)) (c : OpenAIStreamCompletion),
        c ∈ claudeStreamChat chat_id created model events →
        c.id = chat_id ∧ c.created = created ∧ c.model = model) := by
  constructor
  · intro chat_id created model netChunks c h
    rcases List.mem_flatMap.mp h with ⟨items, _, hmem⟩
    exact mem_processOpenAILines hmem
  · intro chat_id created model events c h
    exact mem_processClaudeLines h

/-- Witness for C9 on concrete one-record streams of both clients. -/
theorem stream_chunks_share_id_created_model_witness :
    ((mkOpenAIChunk "chatcmpl-a" 7 "m1" {}).id = "chatcmpl-a" ∧
     (mkOpenAIChunk "chatcmpl-a" 7 "m1" {}).created = 7 ∧
     (mkOpenAIChunk "chatcmpl-a" 7 "m1" {}).model = "m1") ∧
    ((mkClaudeChunk "chatcmpl-b" 9 "m2" none none {} {}).id = "chatcmpl-b" ∧
     (mkClaudeChunk "chatcmpl-b" 9 "m2" none none {} {}).created = 9 ∧
     (mkClaudeChunk "chatcmpl-b" 9 "m2" none none {} {}).model = "m2") :=
  ⟨stream_chunks_share_id_created_model.1 "chatcmpl-a" 7 "m1"
      [[SSEItem.record {}]] (mkOpenAIChunk "chatcmpl-a" 7 "m1" {}) (by decide),
   stream_chunks_share_id_created_model.2 "chatcmpl-b" 9 "m2"
      [some {delta := some {}}] (mkClaudeChunk "chatcmpl-b" 9 "m2" none none {} {})
      (by decide)⟩

/-! ### Configuration records (src/app/db/db_config.py) -/

structure ProviderConfig where
  id : Option String := none
  provider_name : String := ""
  api_key : String := ""
  api_base_url : String := ""
  api_request_address : String := ""
  provider_format : String := ""
  is_proxy_open : Bool := false
  is_valid : Bool := false
deriving DecidableEq

structure ModelConfig where
  id : Option String := none
  model_name : String := ""
  model_id : String := ""
  provider_id : Option String := none
  model_type : String := ""
  model_format : String := ""
  model_custom_json : Option String := none
  is_origin_reasoning : Bool := false
  is_valid : Bool := false
  is_origin_output : Bool := false
deriving DecidableEq

structure CompositeModelConfig where
  id : Option String := none
  model_name : String := ""
  reasoner_model_id : Option String := none
  general_model_id : Option String := none
  is_valid : Bool := false
deriving DecidableEq

/-! ### Client construction (src/app/manager/model_manager.py
`ModelManager.create_instance` lines 115-152, src/app/clients/\*.py
`__init__` signatures)

Python runtime behaviour that the claims hinge on is embedded explicitly:
attribute access on a value that is not a `ProviderConfig` raises
`AttributeError`, and calling a function with a keyword it does not accept,
or without a required positional, raises `TypeError`.  Call binding is
modelled by each `__init__`'s parameter-name list (after `self`) together
with its defaultless-parameter list. -/

inductive PyErr where
  | attributeError (attr : String)
  | typeError (msg : String)
  | valueError (msg : String)
deriving DecidableEq

/-- Argument passed in `create_instance(provider, model_format)` position:
the direct path passes the looked-up `ProviderConfig`; the composite path
(lines 269 and 274) passes the model's raw `provider_id` instead. -/
inductive ProviderArg where
  | record (p : ProviderConfig)
  | rawId (id : Option String)
deriving DecidableEq

def ProviderArg.getIsProxyOpen : ProviderArg → Except PyErr Bool
  | .record p => .ok p.is_proxy_open
  | .rawId _ => .error (.attributeError "is_proxy_open")

def ProviderArg.getApiBaseUrl : ProviderArg → Except PyErr String
  | .record p => .ok p.api_base_url
  | .rawId _ => .error (.attributeError "api_base_url")

def ProviderArg.getApiRequestAddress : ProviderArg → Except PyErr String
  | .record p => .ok p.api_request_address
  | .rawId _ => .error (.attributeError "api_request_address")

def ProviderArg.getApiKey : ProviderArg → Except PyErr String
  | .record p => .ok p.api_key
  | .rawId _ => .error (.attributeError "api_key")

/-- Python callable signature: parameter names after `self`, in order, and
the subset having no default value. -/
structure PySig where
  params : List String
  required : List String
deriving DecidableEq

/-- Binding of a call with `nPositional` positional arguments followed by
the named keyword arguments, per Python semantics: an unknown keyword
raises `TypeError("unexpected keyword argument")`; a defaultless parameter
bound neither positionally nor by keyword raises `TypeError("missing
required positional argument")`. -/
def bindCall (sig : PySig) (nPositional : Nat) (kwargs : List String) :
    Except PyErr Unit :=
  match kwargs.find? (fun k => !sig.params.contains k) with
  | some k => .error (.typeError ("unexpected keyword argument \x27" ++ k ++ "\x27"))
  | none =>
    let bound := sig.params.take nPositional ++ kwargs
    match sig.required.find? (fun r => !bound.contains r) with
    | some r => .error (.typeError ("missing required positional argument \x27" ++ r ++ "\x27"))
    | none => .ok ()

/-- Signature of `DeepSeekClient.__init__` (deepseek_client.py lines 14-19):
`(api_key, api_url, proxy=None)` — it accepts NO `connector`. -/
def deepSeekInitSig : PySig :=
  { params := ["api_key", "api_url", "proxy"], required := ["api_key", "api_url"] }

/-- Signature of `BaseClient.__init__` (base_client.py lines 68-75):
`(api_key, api_url, connector, timeout=None, proxy=None)` — `connector` is
required. -/
def baseClientInitSig : PySig :=
  { params := ["api_key", "api_url", "connector", "timeout", "proxy"],
    required := ["api_key", "api_url", "connector"] }

/-- Signature of `OpenAICompatibleClient.__init__`
(openai_compatible_client.py lines 27-34). -/
def openAIInitSig : PySig :=
  { params := ["api_key", "api_url", "connector", "timeout", "proxy"],
    required := ["api_key", "api_url", "connector"] }

/-- Signature of `ClaudeClient.__init__` (claude_client.py lines 20-27). -/
def claudeInitSig : PySig :=
  { params := ["api_key", "api_url", "connector", "provider", "proxy"],
    required := ["api_key", "api_url", "connector"] }

/-- The `super().__init__(api_key, api_url, proxy=proxy)` call inside
`DeepSeekClient.__init__` (deepseek_client.py line 27): two positional
arguments and the `proxy` keyword, bound against `BaseClient.__init__`. -/
def deepSeekSuperInitCall : Except PyErr Unit :=
  bindCall baseClientInitSig 2 ["proxy"]

inductive ClientInstance where
  | openaiCompatible (api_key api_url : String) (proxy : Option String)
  | claude (api_key api_url : String) (proxy : Option String)
  | deepseek (api_key api_url : String) (proxy : Option String)
deriving DecidableEq

/-- `ModelManager.create_instance` (lines 115-152): read
`provider.is_proxy_open` (line 125, the first attribute access on the
`provider` argument), build `api_url`, then construct the client for the
format, every constructor being invoked with the keywords
`api_key, api_url, connector, proxy`; an unknown format raises
`ValueError`. -/
def create_instance (proxy_address : Option String) (provider : ProviderArg)
    (model_format : String) : Except PyErr ClientInstance := do
  let isOpen ← provider.getIsProxyOpen
  let isproxy_open := if isOpen then proxy_address else none
  let base ← provider.getApiBaseUrl
  let addr ← provider.getApiRequestAddress
  let api_url := base ++ "/" ++ addr
  let key ← provider.getApiKey
  if model_format = "openai" then
    match bindCall openAIInitSig 0 ["api_key", "api_url", "connector", "proxy"] with
    | .error e => .error e
    | .ok _ => .ok (.openaiCompatible key api_url isproxy_open)
  else if model_format = "anthropic" then
    match bindCall claudeInitSig 0 ["api_key", "api_url", "connector", "proxy"] with
    | .error e => .error e
    | .ok _ => .ok (.claude key api_url isproxy_open)
  else if model_format = "reasoner" then
    match bindCall deepSeekInitSig 0 ["api_key", "api_url", "connector", "proxy"] with
    | .error e => .error e
    | .ok _ =>
      match deepSeekSuperInitCall with
      | .error e => .error e
      | .ok _ => .ok (.deepseek key api_url isproxy_open)
  else
    .error (.valueError ("不支持的供应商格式: " ++ model_format))

/-- C10: constructing a reasoner-format client always raises.  For every
provider record, `create_instance(provider, "reasoner")` passes
`connector=` to `DeepSeekClient.__init__`, which does not accept it, so the
call raises `TypeError`; and independently the `super().__init__` call
inside `DeepSeekClient.__init__` omits the `connector` argument that
`BaseClient.__init__` requires, so even a direct construction could not
complete. -/
theorem reasoner_client_construction_always_raises :
    (∀ (p : ProviderConfig) (proxy_address : Option String),
        create_instance proxy_address (.record p) "reasoner" =
          .error (.typeError "unexpected keyword argument \x27connector\x27")) ∧
    deepSeekSuperInitCall =
      .error (.typeError "missing required positional argument \x27connector\x27") :=
  ⟨fun _ _ => rfl, rfl⟩

/-! ### Dispatcher state and the composite dispatch path
(src/app/manager/model_manager.py lines 237-302, 397-433) -/

structure ManagerState where
  cancel_events : List (String × Bool) := []
  proxy_address : Option String := none
deriving DecidableEq

/-- Python dict assignment `self.cancel_events[request_id] = event`
(`ModelManager.register_cancel_event`, lines 397-408); a fresh
`asyncio.Event()` is unset (`false`). -/
def register_cancel_event (events : List (String × Bool)) (request_id : String) :
    List (String × Bool) :=
  if events.any (fun e => e.1 = request_id) then
    events.map (fun e => if e.1 = request_id then (request_id, false) else e)
  else
    events ++ [(request_id, false)]

/-- `ModelManager.cancel_request` (lines 410-423): when the id is
registered, set its event and report `True`; otherwise report `False`. -/
def cancel_request (events : List (String × Bool)) (request_id : String) :
    List (String × Bool) × Bool :=
  if events.any (fun e => e.1 = request_id) then
    (events.map (fun e => if e.1 = request_id then (e.1, true) else e), true)
  else
    (events, false)

/-- `ModelManager.cleanup_cancel_event` (lines 425-433): delete the
registration when present.  This method has no call site anywhere under
src. -/
def cleanup_cancel_event (events : List (String × Bool)) (request_id : String) :
    List (String × Bool) :=
  if events.any (fun e => e.1 = request_id) then
    events.filter (fun e => e.1 ≠ request_id)
  else events

/-- Handle returned for a composite dispatch (the `StreamingResponse`
wrapping the orchestrator's generator). -/
structure StreamingHandle where
  chat_id : String
deriving DecidableEq

/-- Signature of `DBManager.get_model` (db_manager.py lines 350-355):
`(model_name=None, models_id=None, is_valid=None)` — the id parameter is
named `models_id`; there is no `model_id` and no `**kwargs`. -/
def getModelSig : PySig :=
  { params := ["model_name", "models_id", "is_valid"], required := [] }

/-- `ModelManager.composite_model_response` (lines 237-302).  Lines 260-261
call `self.db_manager.get_model(model_id=..., is_valid=True)`; binding that
call against `get_model`'s signature is the first thing the body does, and
only if it bound would the row lookups produce anything —
`reasoner_model` / `general_model` stand for what those lookups would
return.  Then: a missing model raises `ValueError("组合模型配置不完整")`;
otherwise `create_instance` is invoked with `reasoner_model.provider_id` —
the raw id, not a looked-up provider record (line 269) — then with
`general_model.provider_id` (line 274); only after both does line 292
register the cancel event and the stream get returned. -/
def composite_model_response (st : ManagerState) (chat_id : String)
    (reasoner_model general_model : Option ModelConfig) :
    Except PyErr (ManagerState × StreamingHandle) := do
  let _ ← bindCall getModelSig 0 ["model_id", "is_valid"]
  let _ ← bindCall getModelSig 0 ["model_id", "is_valid"]
  match reasoner_model, general_model with
  | some rm, some gm => do
    let _ ← create_instance st.proxy_address (.rawId rm.provider_id) rm.model_format
    let _ ← create_instance st.proxy_address (.rawId gm.provider_id) gm.model_format
    let st' := { st with cancel_events := register_cancel_event st.cancel_events chat_id }
    .ok (st', { chat_id := chat_id })
  | _, _ => .error (.valueError "组合模型配置不完整")

/-- C3, evaluated on the code: for EVERY dispatcher state and every outcome
the two model lookups could have, the composite path raises
`TypeError` for the unexpected keyword `model_id` — line 260
calls `get_model(model_id=..., is_valid=True)` but `DBManager.get_model`'s
parameter is `models_id`, so the very first call of the body fails to bind —
before any model is resolved, any client is built, any cancel signal is
registered or any streaming response is returned, contradicting the claimed
behaviour.  (Behind it lie further latent slips: `create_instance` is given
the raw `provider_id` instead of a provider record, and `process_request`
awaits the non-awaitable `StreamingResponse`.) -/
theorem composite_dispatch_raises_type_error :
    ∀ (st : ManagerState) (chat_id : String)
      (reasoner_model general_model : Option ModelConfig),
      composite_model_response st chat_id reasoner_model general_model =
        .error (.typeError "unexpected keyword argument \x27model_id\x27") :=
  fun _ _ _ _ => rfl

/-- Registry mutations performed for one composite chat from dispatch
through stream completion or cancellation: the line-292 registration is the
only one — `cleanup_cancel_event` is never invoked from any code path under
src, so completion removes nothing. -/
def composite_chat_registry_lifecycle (events : List (String × Bool))
    (chat_id : String) : List (String × Bool) :=
  register_cancel_event events chat_id

/-- C5, evaluated on the code: after a composite chat has been dispatched
and its stream has completed, the registration is still present, so a
subsequent `cancel_request` for the same chat id returns `True` (the
`/v1/cancel` endpoint would answer 200, not 404).  Only an explicit
`cleanup_cancel_event` — defined but never called — would make the
subsequent cancel return `False`. -/
theorem cancel_registration_leaks_after_completion :
    (cancel_request (composite_chat_registry_lifecycle [] "chatcmpl-1")
        "chatcmpl-1").2 = true ∧
    (cancel_request (cleanup_cancel_event
        (composite_chat_registry_lifecycle [] "chatcmpl-1") "chatcmpl-1")
        "chatcmpl-1").2 = false := by
  decide

/-! ### Upstream HTTP error handling
(src/app/clients/base_client.py lines 19-30 and 190-228,
src/app/utils/error.py lines 12-44, src/app/main.py lines 81-130) -/

inductive ClientExc where
  | clientError (msg : String)
  | clientAPIError (status_code : Nat) (error : Option String) (detail : Option String)
  | valueError (msg : String)
deriving DecidableEq

/-- `handle_all_client_errors` (base_client.py lines 19-30): every caught
exception is re-raised as an aiohttp `ClientError` whose message is the
operation name plus a category tag plus `str(e)`.  A `ClientAPIError`
carries its data in attributes and passes nothing to `Exception.__init__`,
so its `str()` is empty. -/
def handle_all_client_errors (operation_name : String) : ClientExc → ClientExc
  | .clientError m => .clientError (operation_name ++ "客户端错误: " ++ m)
  | .clientAPIError _ _ _ => .clientError (operation_name ++ "请求处理异常: ")
  | .valueError m => .clientError (operation_name ++ "请求处理异常: " ++ m)

/-- `BaseClient._make_non_streaming_request` (lines 190-228) under its
`handle_client_errors("非流式请求")` decorator: aiohttp's `response.ok` is
`status < 400`, so a 400-or-above response raises
`ClientError("API 请求失败: 状态码 <s>, 错误信息: <text>")`, which the
decorator rewraps; a 2xx/3xx response returns the body. -/
def make_non_streaming_request (status : Nat) (body errorText : String) :
    Except ClientExc String :=
  let inner : Except ClientExc String :=
    if status < 400 then .ok body
    else .error (.clientError
      ("API 请求失败: 状态码 " ++ toString status ++ ", 错误信息: " ++ errorText))
  match inner with
  | .ok b => .ok b
  | .error e => .error (handle_all_client_errors "非流式请求" e)

structure GatewayResponse where
  status_code : Nat
  error : Option String
  detail : Option String
deriving DecidableEq

/-- Exception-to-response mapping of the `/v1/chat/completions` handler
(main.py lines 101-130): `ValueError` → 400 `参数错误`; `ClientAPIError` →
its own `status_code`/`error`/`detail`; anything else — an aiohttp
`ClientError` included — 400-agnostic 500 with detail `其他错误`. -/
def chat_completions_on_error : ClientExc → GatewayResponse
  | .valueError m => { status_code := 400, error := some m, detail := some "参数错误" }
  | .clientAPIError s e d => { status_code := s, error := e, detail := d }
  | .clientError m => { status_code := 500, error := some m, detail := some "其他错误" }

/-- `handle_http_error` (error.py lines 12-44): the translation of a
non-2xx upstream response into `ClientAPIError{status, error, detail}` with
the substring-derived hint.  `errorMessage` is `str(body["error"])` when the
JSON body has an `error` key, `none` otherwise (then the whole body string
becomes the error).  Defined under src but called from NOWHERE in the
codebase. -/
def handle_http_error (status : Nat) (errorMessage : Option String)
    (bodyStr : String) : ClientExc :=
  match errorMessage with
  | some em =>
    let detail :=
      if strContains em "Input length" then
        some "错误可能情况：输入的上下文内容过长，超过了模型的最大处理长度限制。请减少输入内容或分段处理。"
      else if strContains em "InvalidParameter" then
        some "错误可能情况：请求参数无效，请检查输入内容。"
      else if strContains em "BadRequest" then
        some "错误可能情况：请求格式错误，请检查输入内容。"
      else none
    .clientAPIError status (some em) detail
  | none => .clientAPIError status (some bodyStr) none

/-- Upstream error text used to exercise the context-too-long path. -/
def c4ErrText : String := "Input length exceeds the maximum context length"

/-- Message produced by the request path for a 400 upstream carrying
`c4ErrText`. -/
def c4WrappedMsg : String :=
  "非流式请求客户端错误: API 请求失败: 状态码 400, 错误信息: " ++ c4ErrText

/-- C4, evaluated at the failing input: a direct request whose upstream
answers 400 with an `Input length` message is NOT translated into a
`ClientAPIError` — `_make_non_streaming_request` raises a plain aiohttp
`ClientError`, which the endpoint's generic handler turns into a 500 with
detail `其他错误`; the upstream status is not propagated and no
context-too-long hint is attached.  The dead `handle_http_error`, had it
been called, would have produced exactly the claimed
`ClientAPIError{400, …, context-too-long hint}`. -/
theorem upstream_http_error_not_translated :
    make_non_streaming_request 400 "" c4ErrText =
      .error (.clientError c4WrappedMsg) ∧
    chat_completions_on_error (.clientError c4WrappedMsg) =
      { status_code := 500, error := some c4WrappedMsg, detail := some "其他错误" } ∧
    (chat_completions_on_error (.clientError c4WrappedMsg)).status_code ≠ 400 ∧
    handle_http_error 400 (some c4ErrText) "" =
      .clientAPIError 400 (some c4ErrText)
        (some "错误可能情况：输入的上下文内容过长，超过了模型的最大处理长度限制。请减少输入内容或分段处理。") := by
  refine ⟨by decide, by decide, by decide, by decide⟩

/-! ### Persisted name namespace
(src/app/db/db_manager.py `save_model` lines 397-447 and
`save_composite_model` lines 562-606)

Each save first looks up ONLY its own table by name (`get_model` /
`get_composite_model`), rejects when the hit is a different record
(`existing.id != config.id`), then updates (truthy `config.id`) or inserts
with a fresh uuid.  The uuid is passed in as `fresh_id`. -/

structure DBState where
  models : List ModelConfig := []
  composite_models : List CompositeModelConfig := []
deriving DecidableEq

def save_model_rows (models : List ModelConfig) (config : ModelConfig)
    (fresh_id : String) : Except String (List ModelConfig) :=
  let write : List ModelConfig :=
    if truthyOptStr config.id then
      models.map (fun m => if m.id = config.id then config else m)
    else
      models ++ [{ config with id := some fresh_id }]
  match models.find? (fun m => m.model_name = config.model_name) with
  | some existing =>
    if existing.id ≠ config.id then
      .error ("模型名称 \x27" ++ config.model_name ++ "\x27 已存在")
    else .ok write
  | none => .ok write

/-- `DBManager.save_model`: reads and writes the `models` table only. -/
def save_model (db : DBState) (config : ModelConfig) (fresh_id : String) :
    Except String DBState :=
  (save_model_rows db.models config fresh_id).map
    (fun ms => { db with models := ms })

def save_composite_model_rows (comps : List CompositeModelConfig)
    (config : CompositeModelConfig) (fresh_id : String) :
    Except String (List CompositeModelConfig) :=
  let write : List CompositeModelConfig :=
    if truthyOptStr config.id then
      comps.map (fun m => if m.id = config.id then config else m)
    else
      comps ++ [{ config with id := some fresh_id }]
  match comps.find? (fun m => m.model_name = config.model_name) with
  | some existing =>
    if existing.id ≠ config.id then
      .error ("组合模型名称 \x27" ++ config.model_name ++ "\x27 已存在")
    else .ok write
  | none => .ok write

/-- `DBManager.save_composite_model`: reads and writes the
`composite_models` table only. -/
def save_composite_model (db : DBState) (config : CompositeModelConfig)
    (fresh_id : String) : Except String DBState :=
  (save_composite_model_rows db.composite_models config fresh_id).map
    (fun cs => { db with composite_models := cs })

/-- New model configuration named `X` (no id yet, so an insert). -/
def c8ModelX : ModelConfig := { model_name := "X" }

/-- New composite configuration also named `X`. -/
def c8CompX : CompositeModelConfig := { model_name := "X" }

/-- Database after `save_model` inserts the model `X`. -/
def c8Db1 : DBState := { models := [{ c8ModelX with id := some "mid-1" }] }

/-- Database after `save_composite_model` then inserts the composite `X`. -/
def c8Db2 : DBState :=
  { models := [{ c8ModelX with id := some "mid-1" }],
    composite_models := [{ c8CompX with id := some "cid-1" }] }

/-- C8 counterexample: saving a model named `X` and then a composite named
`X` BOTH succeed — `save_composite_model` consults only the
`composite_models` table, so the model's name does not block it — leaving a
state in which a model record and a composite record hold the same name,
refuting the one-shared-namespace claim. -/
theorem model_composite_namespace_not_shared :
    save_model {} c8ModelX "mid-1" = .ok c8Db1 ∧
    save_composite_model c8Db1 c8CompX "cid-1" = .ok c8Db2 ∧
    c8Db2.models.any (fun m => m.model_name = "X") = true ∧
    c8Db2.composite_models.any (fun m => m.model_name = "X") = true := by
  refine ⟨by decide, by decide, by decide, by decide⟩

/-- C8 amended: name uniqueness is enforced per kind at write time.
`save_model` rejects a name already held by a different model record and
`save_composite_model` one already held by a different composite record
(with the source's error messages); each save reads and writes only its own
table — a successful `save_model` leaves the composites untouched and vice
versa — so a name held by a record of the other kind is never rejected and
a model and a composite may share a name. -/
theorem per_kind_name_uniqueness :
    (∀ (models : List ModelConfig) (config : ModelConfig) (fresh_id : String)
        (m : ModelConfig),
        models.find? (fun r => r.model_name = config.model_name) = some m →
        m.id ≠ config.id →
        save_model_rows models config fresh_id =
          .error ("模型名称 \x27" ++ config.model_name ++ "\x27 已存在")) ∧
    (∀ (comps : List CompositeModelConfig) (config : CompositeModelConfig)
        (fresh_id : String) (m : CompositeModelConfig),
        comps.find? (fun r => r.model_name = config.model_name) = some m →
        m.id ≠ config.id →
        save_composite_model_rows comps config fresh_id =
          .error ("组合模型名称 \x27" ++ config.model_name ++ "\x27 已存在")) ∧
    (∀ (db : DBState) (config : ModelConfig) (fresh_id : String) (db1 : DBState),
        save_model db config fresh_id = .ok db1 →
        db1.composite_models = db.composite_models) ∧
    (∀ (db : DBState) (config : CompositeModelConfig) (fresh_id : String)
        (db1 : DBState),
        save_composite_model db config fresh_id = .ok db1 →
        db1.models = db.models) := by
  refine ⟨?_, ?_, ?_, ?_⟩
  · intro models config fresh_id m hfind hne
    simp [save_model_rows, hfind, hne]
  · intro comps config fresh_id m hfind hne
    simp [save_composite_model_rows, hfind, hne]
  · intro db config fresh_id db1 h
    unfold save_model at h
    cases hrows : save_model_rows db.models config fresh_id with
    | error e => rw [hrows] at h; simp [Except.map] at h
    | ok ms =>
      rw [hrows] at h
      simp only [Except.map] at h
      cases h
      rfl
  · intro db config fresh_id db1 h
    unfold save_composite_model at h
    cases hrows : save_composite_model_rows db.composite_models config fresh_id with
    | error e => rw [hrows] at h; simp [Except.map] at h
    | ok cs =>
      rw [hrows] at h
      simp only [Except.map] at h
      cases h
      rfl

/-- Witness for the amended C8 theorem: a duplicate model name is rejected,
a duplicate composite name is rejected, and successful saves leave the
other kind's table unchanged. -/
theorem per_kind_name_uniqueness_witness :
    save_model_rows [{ c8ModelX with id := some "mid-1" }] c8ModelX "mid-2" =
      .error ("模型名称 \x27" ++ c8ModelX.model_name ++ "\x27 已存在") ∧
    save_composite_model_rows [{ c8CompX with id := some "cid-1" }] c8CompX "cid-2" =
      .error ("组合模型名称 \x27" ++ c8CompX.model_name ++ "\x27 已存在") ∧
    c8Db1.composite_models = (DBState.mk [] []).composite_models ∧
    c8Db2.models = c8Db1.models :=
  ⟨per_kind_name_uniqueness.1 [{ c8ModelX with id := some "mid-1" }] c8ModelX
      "mid-2" { c8ModelX with id := some "mid-1" } (by decide) (by decide),
   per_kind_name_uniqueness.2.1 [{ c8CompX with id := some "cid-1" }] c8CompX
      "cid-2" { c8CompX with id := some "cid-1" } (by decide) (by decide),
   per_kind_name_uniqueness.2.2.1 {} c8ModelX "mid-1" c8Db1 (by decide),
   per_kind_name_uniqueness.2.2.2 c8Db1 c8CompX "cid-1" c8Db2 (by decide)⟩

end DeepClaude
